import Mathlib

/-!
# Verification of `PREDICT/processing/SearchCV.py`

A shallow embedding, in Lean 4, of the search-and-aggregate engine of the
PREDICT repository (`PREDICT/processing/SearchCV.py`): the result reducer
`BaseSearchCV.process_fit`, the execution backends' result-gathering order
(`BaseSearchCVJoblib._fit`, `BaseSearchCVfastr._fit`), the Caruana greedy
ensemble loop of `BaseSearchCV.create_ensemble`, the `Ensemble` prediction
combinators, the `sar_score` metric, and the `_check_is_fitted` guard.

Modelling conventions:
* Python floats are modelled as `ℚ` (exact rational arithmetic); the float
  literals `0.5`, `1e-10`, `0.001` become the exact rationals `1/2`,
  `1/10^10`, `1/1000`.
* numpy arrays become `List ℚ`; `np.reshape(n_candidates, n_splits)` becomes
  `chunkRows`; `xs[::n]` becomes `takeEvery`.
* sklearn metric functions (`roc_auc_score`, `accuracy_score`, `f1_score`,
  `mean_squared_error`) are external collaborators (out of scope per the
  spec) and are passed as function parameters.
* in-place mutation of a caller's array is modelled by returning the
  mutated array alongside the computed value.
* fallible code returns `Except String`; `Option` models a partial lookup.
-/

namespace PREDICT

/-- `np.average(xs, weights=w)`: the weighted mean `Σ xᵢwᵢ / Σ wᵢ` when
weights are given, the arithmetic mean otherwise. -/
def npAverage (xs : List ℚ) : Option (List ℚ) → ℚ
  | some w => (List.zipWith (· * ·) xs w).sum / w.sum
  | none => xs.sum / xs.length

/-- `scipy.stats.rankdata(-means, method='min')`: candidate `i` receives rank
`1 + #{j | means[j] > means[i]}` — descending by mean, ties all get the
minimal rank of the tied block. -/
def rankdataMinNeg (means : List ℚ) : List ℕ :=
  means.map (fun m => 1 + (means.filter (fun m2 => m2 > m)).length)

/-- `np.array(xs).reshape(len(xs)/n, n)`: the flat candidate-major list cut
into rows of `n` per-split entries (exact when `n ∣ len(xs)`, as numpy
requires). -/
def chunkRows (n : ℕ) (xs : List ℚ) : List (List ℚ) :=
  (List.range (xs.length / n)).map (fun i => (xs.drop (i * n)).take n)

/-- Python `xs[::n]`: entries at indices `0, n, 2n, …` — "we take only one
result per split" in `process_fit`. -/
def takeEvery (n : ℕ) (xs : List ℕ) : List ℕ :=
  (List.range ((xs.length + n - 1) / n)).map (fun i => xs.getD (i * n) 0)

/-- Lexicographic order on `(rank, index)` pairs: Python's `sorted` on a list
of 2-tuples. -/
def lexLe (a b : ℕ × ℕ) : Prop := a.1 < b.1 ∨ (a.1 = b.1 ∧ a.2 ≤ b.2)

instance : DecidableRel lexLe := fun a b => by unfold lexLe; infer_instance

instance : IsTotal (ℕ × ℕ) lexLe where
  total a b := by
    rcases Nat.lt_trichotomy a.1 b.1 with h | h | h
    · exact Or.inl (Or.inl h)
    · rcases Nat.le_total a.2 b.2 with h2 | h2
      · exact Or.inl (Or.inr ⟨h, h2⟩)
      · exact Or.inr (Or.inr ⟨h.symm, h2⟩)
    · exact Or.inr (Or.inl h)

instance : IsTrans (ℕ × ℕ) lexLe where
  trans a b c hab hbc := by
    rcases hab with h1 | ⟨h1, h1'⟩
    · rcases hbc with h2 | ⟨h2, _⟩
      · exact Or.inl (h1.trans h2)
      · exact Or.inl (h2 ▸ h1)
    · rcases hbc with h2 | ⟨h2, h2'⟩
      · exact Or.inl (h1 ▸ h2)
      · exact Or.inr ⟨h1.trans h2, h1'.trans h2'⟩

/-- `sortedindices = [x for _, x in sorted(zip(ranked_test_scores, indices))]`
with `indices = range(0, len(ranked_test_scores))`. -/
def sortedIndicesByRank (ranks : List ℕ) : List ℕ :=
  (List.insertionSort lexLe (ranks.zip (List.range ranks.length))).map Prod.snd

/-- Input of `BaseSearchCV.process_fit` (the parts the reducer's ranking,
aggregation and truncation consume).  `params` stands for the flat
per-(candidate, split) `parameters_est` list, with candidates abstracted to
numeric identifiers; `testScores` is flat candidate-major, split-minor. -/
structure ProcessFitInput where
  nSplits : ℕ
  params : List ℕ
  testScores : List ℚ
  testSampleCounts : List ℚ
  iid : Bool
  maxlen : ℕ

/-- Result table state produced by `process_fit`: the pre-truncation columns
(`meansAll`, `ranksAll`), the retained index list `bestIndices`, the retained
columns, and `best_index` (position of the first retained rank-1 row,
`np.flatnonzero(results["rank_test_score"] == 1)[0]`, `none` when the lookup
would raise). -/
structure ProcessFitResult where
  nCandidates : ℕ
  meansAll : List ℚ
  ranksAll : List ℕ
  bestIndices : List ℕ
  meanTestScore : List ℚ
  rankTestScore : List ℕ
  params : List ℕ
  bestIndex : Option ℕ

/-- `BaseSearchCV.process_fit`, aggregation/ranking/truncation part: one row
per candidate (`[::n_splits]`), per-candidate `np.average` of test scores
(weighted by the first `n_splits` test-sample counts iff `self.iid`),
`rankdata(-means, 'min')` ranks, indices sorted by `(rank, index)`, retention
of the first `min(self.maxlen, n_candidates)` sorted indices, and re-indexing
of all retained columns. -/
def processFit (inp : ProcessFitInput) : ProcessFitResult :=
  let candidateParams := takeEvery inp.nSplits inp.params
  let nCand := candidateParams.length
  let counts := inp.testSampleCounts.take inp.nSplits
  let rows := chunkRows inp.nSplits inp.testScores
  let means := rows.map (fun r => npAverage r (if inp.iid then some counts else none))
  let ranks := rankdataMinNeg means
  let sidx := sortedIndicesByRank ranks
  let maxlen := min inp.maxlen nCand
  let best := sidx.take maxlen
  let retainedRanks := best.map (fun i => ranks.getD i 0)
  { nCandidates := nCand
    meansAll := means
    ranksAll := ranks
    bestIndices := best
    meanTestScore := best.map (fun i => means.getD i 0)
    rankTestScore := retainedRanks
    params := best.map (fun i => candidateParams.getD i 0)
    bestIndex := retainedRanks.findIdx? (· = 1) }

/-! ### Supporting lemmas for the reducer -/

lemma getD_map_of_lt {α β : Type*} (f : α → β) (l : List α) (i : ℕ) (d : β) (d' : α)
    (h : i < l.length) : (l.map f).getD i d = f (l.getD i d') := by
  rw [List.getD_eq_getElem (l.map f) d (by simpa using h),
    List.getD_eq_getElem l d' h, List.getElem_map]

lemma getD_take_zero {α : Type*} (l : List α) (m : ℕ) (d : α)
    (hm : 0 < m) (hl : 0 < l.length) : (l.take m).getD 0 d = l.getD 0 d := by
  have hlt : 0 < (l.take m).length := by
    rw [List.length_take]; exact lt_min hm hl
  rw [List.getD_eq_getElem (l.take m) d hlt, List.getD_eq_getElem l d hl,
    List.getElem_take]

lemma length_takeEvery (n : ℕ) (xs : List ℕ) (c : ℕ) (hn : 1 ≤ n)
    (hxs : xs.length = c * n) : (takeEvery n xs).length = c := by
  simp only [takeEvery, List.length_map, List.length_range, hxs]
  have h1 : c * n + n - 1 = (n - 1) + c * n := by omega
  rw [h1, Nat.add_mul_div_right _ _ (by omega : 0 < n),
    Nat.div_eq_of_lt (by omega)]
  omega

lemma length_chunkRows (n : ℕ) (xs : List ℚ) (c : ℕ) (hn : 1 ≤ n)
    (hxs : xs.length = c * n) : (chunkRows n xs).length = c := by
  simp only [chunkRows, List.length_map, List.length_range, hxs]
  exact Nat.mul_div_cancel c (by omega : 0 < n)

lemma length_rankdataMinNeg (ms : List ℚ) : (rankdataMinNeg ms).length = ms.length := by
  simp [rankdataMinNeg]

lemma rankdataMinNeg_getElem (ms : List ℚ) (i : ℕ) (h : i < ms.length) :
    (rankdataMinNeg ms).getD i 0 = 1 + (ms.filter (fun m2 => m2 > ms.getD i 0)).length := by
  rw [List.getD_eq_getElem ms 0 h]
  exact getD_map_of_lt _ ms i 0 0 h |>.trans (by rw [List.getD_eq_getElem ms 0 h])

lemma one_le_rankdataMinNeg (ms : List ℚ) (i : ℕ) (h : i < ms.length) :
    1 ≤ (rankdataMinNeg ms).getD i 0 := by
  rw [rankdataMinNeg_getElem ms i h]; omega

lemma rankdataMinNeg_eq_one_iff (ms : List ℚ) (i : ℕ) (h : i < ms.length) :
    (rankdataMinNeg ms).getD i 0 = 1 ↔ ∀ x ∈ ms, x ≤ ms.getD i 0 := by
  rw [rankdataMinNeg_getElem ms i h]
  constructor
  · intro h1 x hx
    have hf : ms.filter (fun m2 => m2 > ms.getD i 0) = [] :=
      List.length_eq_zero.mp (by omega)
    have := List.filter_eq_nil_iff.mp hf x hx
    simpa using this
  · intro hall
    have hf : ms.filter (fun m2 => m2 > ms.getD i 0) = [] := by
      refine List.filter_eq_nil_iff.mpr ?_
      intro x hx
      simpa using hall x hx
    rw [hf]
    simp

lemma exists_le_all (ms : List ℚ) (h : ms ≠ []) :
    ∃ i, ∃ _ : i < ms.length, ∀ x ∈ ms, x ≤ ms.getD i 0 := by
  induction ms with
  | nil => simp at h
  | cons a t ih =>
    cases t with
    | nil => exact ⟨0, by simp, by simp⟩
    | cons b u =>
      obtain ⟨j, hj, hmax⟩ := ih (by simp)
      by_cases hab : a ≤ (b :: u).getD j 0
      · refine ⟨j + 1, by simpa using Nat.succ_lt_succ hj, ?_⟩
        intro x hx
        have hgd : (a :: b :: u).getD (j + 1) 0 = (b :: u).getD j 0 := by
          simp [List.getD]
        rw [hgd]
        rcases List.mem_cons.mp hx with rfl | hx
        · exact hab
        · exact hmax x hx
      · refine ⟨0, by simp, ?_⟩
        intro x hx
        rcases List.mem_cons.mp hx with rfl | hx
        · simp
        · calc x ≤ (b :: u).getD j 0 := hmax x hx
            _ ≤ a := le_of_not_le hab

lemma mem_zip_range {ranks : List ℕ} {p : ℕ × ℕ}
    (hp : p ∈ ranks.zip (List.range ranks.length)) :
    ∃ _ : p.2 < ranks.length, p.1 = ranks.getD p.2 0 := by
  obtain ⟨k, hk, hkp⟩ := List.mem_iff_getElem.mp hp
  have hk' : k < ranks.length := by
    simpa [List.length_zip, List.length_range] using hk
  rw [List.getElem_zip] at hkp
  simp only [List.getElem_range] at hkp
  have h2 : p.2 = k := by rw [← hkp]
  have h1 : p.1 = ranks[k] := by rw [← hkp]
  subst h2
  exact ⟨hk', by rw [h1, List.getD_eq_getElem ranks 0 hk']⟩

lemma pair_mem_zip_range {ranks : List ℕ} {i : ℕ} (h : i < ranks.length) :
    (ranks.getD i 0, i) ∈ ranks.zip (List.range ranks.length) := by
  refine List.mem_iff_getElem.mpr ⟨i, ?_, ?_⟩
  · simpa [List.length_zip, List.length_range] using h
  · rw [List.getElem_zip, List.getD_eq_getElem ranks 0 h]
    simp [List.getElem_range]

lemma length_sortedIndicesByRank (ranks : List ℕ) :
    (sortedIndicesByRank ranks).length = ranks.length := by
  simp [sortedIndicesByRank, List.length_insertionSort, List.length_zip,
    List.length_range]

lemma sortedIndicesByRank_mem_lt {ranks : List ℕ} {i : ℕ}
    (h : i ∈ sortedIndicesByRank ranks) : i < ranks.length := by
  obtain ⟨p, hp, hpi⟩ := List.mem_map.mp h
  have hp2 : p ∈ ranks.zip (List.range ranks.length) :=
    (List.perm_insertionSort lexLe _).mem_iff.mp hp
  obtain ⟨h2, _⟩ := mem_zip_range hp2
  omega

lemma sortedIndicesByRank_head {ranks : List ℕ} (hne : ranks ≠ [])
    (h1 : ∃ i, ∃ _ : i < ranks.length, ranks.getD i 0 = 1)
    (hge : ∀ i, i < ranks.length → 1 ≤ ranks.getD i 0) :
    0 < (sortedIndicesByRank ranks).length ∧
      ranks.getD ((sortedIndicesByRank ranks).getD 0 0) 0 = 1 := by
  have hlen : 0 < ranks.length := List.length_pos.mpr hne
  have hslen : 0 < (sortedIndicesByRank ranks).length := by
    rw [length_sortedIndicesByRank]; exact hlen
  refine ⟨hslen, ?_⟩
  have hperm := List.perm_insertionSort lexLe (ranks.zip (List.range ranks.length))
  have hsorted := List.sorted_insertionSort lexLe (ranks.zip (List.range ranks.length))
  have hsne : List.insertionSort lexLe (ranks.zip (List.range ranks.length)) ≠ [] := by
    intro h0
    have := List.length_insertionSort lexLe (ranks.zip (List.range ranks.length))
    rw [h0] at this
    simp [List.length_zip, List.length_range] at this
    omega
  obtain ⟨h0, rest, hcons⟩ := List.exists_cons_of_ne_nil hsne
  have hidx : (sortedIndicesByRank ranks).getD 0 0 = h0.2 := by
    simp [sortedIndicesByRank, hcons]
  have hh0mem : h0 ∈ ranks.zip (List.range ranks.length) :=
    hperm.mem_iff.mp (by rw [hcons]; exact List.mem_cons_self h0 rest)
  obtain ⟨hb, hval⟩ := mem_zip_range hh0mem
  have hge0 : 1 ≤ h0.1 := by rw [hval]; exact hge h0.2 hb
  obtain ⟨i1, hi1, hr1⟩ := h1
  have hp1s : (ranks.getD i1 0, i1) ∈
      List.insertionSort lexLe (ranks.zip (List.range ranks.length)) :=
    hperm.mem_iff.mpr (pair_mem_zip_range hi1)
  have h0le : h0.1 ≤ 1 := by
    rw [hcons] at hp1s hsorted
    rcases List.mem_cons.mp hp1s with heq | hmem
    · have h1' : h0.1 = 1 := by rw [← heq]; exact hr1
      omega
    · have hrel := (List.sorted_cons.mp hsorted).1 _ hmem
      rcases hrel with hlt | ⟨heq, _⟩
      · simp only [hr1] at hlt
        omega
      · simp only [hr1] at heq
        omega
  rw [hidx, ← hval]
  omega

/-! ### Component equations of `processFit` -/

lemma pf_meansAll_eq (inp : ProcessFitInput) :
    (processFit inp).meansAll = (chunkRows inp.nSplits inp.testScores).map
      (fun r => npAverage r
        (if inp.iid then some (inp.testSampleCounts.take inp.nSplits) else none)) := rfl

lemma pf_ranksAll_eq (inp : ProcessFitInput) :
    (processFit inp).ranksAll = rankdataMinNeg (processFit inp).meansAll := rfl

lemma pf_bestIndices_eq (inp : ProcessFitInput) :
    (processFit inp).bestIndices = (sortedIndicesByRank (processFit inp).ranksAll).take
      (min inp.maxlen (takeEvery inp.nSplits inp.params).length) := rfl

lemma pf_rankTestScore_eq (inp : ProcessFitInput) :
    (processFit inp).rankTestScore =
      (processFit inp).bestIndices.map (fun i => (processFit inp).ranksAll.getD i 0) := rfl

lemma pf_meanTestScore_eq (inp : ProcessFitInput) :
    (processFit inp).meanTestScore =
      (processFit inp).bestIndices.map (fun i => (processFit inp).meansAll.getD i 0) := rfl

lemma pf_params_eq (inp : ProcessFitInput) :
    (processFit inp).params = (processFit inp).bestIndices.map
      (fun i => (takeEvery inp.nSplits inp.params).getD i 0) := rfl

lemma pf_meansAll_length (inp : ProcessFitInput) (c : ℕ) (hn : 1 ≤ inp.nSplits)
    (hs : inp.testScores.length = c * inp.nSplits) :
    (processFit inp).meansAll.length = c := by
  rw [pf_meansAll_eq, List.length_map]
  exact length_chunkRows inp.nSplits inp.testScores c hn hs

lemma pf_ranksAll_length (inp : ProcessFitInput) (c : ℕ) (hn : 1 ≤ inp.nSplits)
    (hs : inp.testScores.length = c * inp.nSplits) :
    (processFit inp).ranksAll.length = c := by
  rw [pf_ranksAll_eq, length_rankdataMinNeg]
  exact pf_meansAll_length inp c hn hs

lemma pf_bestIndices_length (inp : ProcessFitInput) (c : ℕ) (hn : 1 ≤ inp.nSplits)
    (hp : inp.params.length = c * inp.nSplits)
    (hs : inp.testScores.length = c * inp.nSplits) :
    (processFit inp).bestIndices.length = min inp.maxlen c := by
  rw [pf_bestIndices_eq, List.length_take, length_sortedIndicesByRank,
    pf_ranksAll_length inp c hn hs, length_takeEvery inp.nSplits inp.params c hn hp]
  omega

lemma pf_bestIndices_mem_lt (inp : ProcessFitInput) {i : ℕ}
    (h : i ∈ (processFit inp).bestIndices) : i < (processFit inp).ranksAll.length := by
  rw [pf_bestIndices_eq] at h
  exact sortedIndicesByRank_mem_lt (List.mem_of_mem_take h)

lemma getD_mem {α : Type*} {l : List α} {i : ℕ} (h : i < l.length) (d : α) :
    l.getD i d ∈ l := by
  rw [List.getD_eq_getElem l d h]
  exact List.getElem_mem h

lemma pf_rankTestScore_length (inp : ProcessFitInput) :
    (processFit inp).rankTestScore.length = (processFit inp).bestIndices.length := by
  rw [pf_rankTestScore_eq, List.length_map]

lemma pf_meanTestScore_length (inp : ProcessFitInput) :
    (processFit inp).meanTestScore.length = (processFit inp).bestIndices.length := by
  rw [pf_meanTestScore_eq, List.length_map]

lemma pf_params_length (inp : ProcessFitInput) :
    (processFit inp).params.length = (processFit inp).bestIndices.length := by
  rw [pf_params_eq, List.length_map]

/-- Under the well-formedness hypotheses, the head of the retained index list
is a candidate whose full (untruncated) rank is 1, and it is retained. -/
lemma pf_head_rank_one (inp : ProcessFitInput) (c : ℕ)
    (hn : 1 ≤ inp.nSplits) (hp : inp.params.length = c * inp.nSplits)
    (hs : inp.testScores.length = c * inp.nSplits)
    (hc : 1 ≤ c) (hm : 1 ≤ inp.maxlen) :
    0 < (processFit inp).bestIndices.length ∧
      (processFit inp).bestIndices.getD 0 0 ∈ (processFit inp).bestIndices ∧
      (processFit inp).ranksAll.getD ((processFit inp).bestIndices.getD 0 0) 0 = 1 := by
  have hRl : (processFit inp).ranksAll.length = c := pf_ranksAll_length inp c hn hs
  have hMl : (processFit inp).meansAll.length = c := pf_meansAll_length inp c hn hs
  have hBl : (processFit inp).bestIndices.length = min inp.maxlen c :=
    pf_bestIndices_length inp c hn hp hs
  have hBpos : 0 < (processFit inp).bestIndices.length := by omega
  have hne : (processFit inp).ranksAll ≠ [] := by
    intro h0
    rw [h0] at hRl
    simp at hRl
    omega
  have hmne : (processFit inp).meansAll ≠ [] := by
    intro h0
    rw [h0] at hMl
    simp at hMl
    omega
  have hex : ∃ i, ∃ _ : i < (processFit inp).ranksAll.length,
      (processFit inp).ranksAll.getD i 0 = 1 := by
    obtain ⟨i, hi, hmax⟩ := exists_le_all (processFit inp).meansAll hmne
    refine ⟨i, by omega, ?_⟩
    rw [pf_ranksAll_eq]
    exact (rankdataMinNeg_eq_one_iff (processFit inp).meansAll i hi).mpr hmax
  have hge : ∀ i, i < (processFit inp).ranksAll.length →
      1 ≤ (processFit inp).ranksAll.getD i 0 := by
    intro i hi
    rw [pf_ranksAll_eq]
    rw [pf_ranksAll_eq, length_rankdataMinNeg] at hi
    exact one_le_rankdataMinNeg (processFit inp).meansAll i hi
  obtain ⟨hslen, hhead⟩ := sortedIndicesByRank_head hne hex hge
  have hgd : (processFit inp).bestIndices.getD 0 0 =
      (sortedIndicesByRank (processFit inp).ranksAll).getD 0 0 := by
    rw [pf_bestIndices_eq]
    refine getD_take_zero _ _ 0 ?_ hslen
    rw [length_takeEvery inp.nSplits inp.params c hn hp]
    omega
  exact ⟨hBpos, getD_mem hBpos 0, by rw [hgd]; exact hhead⟩

/-- C1, amended: at least one retained row of the result table has
`rank_test_score = 1`, and a retained row has rank 1 precisely when its
`mean_test_score` equals the maximum of all candidate mean test scores; in
particular each rank-1 row's mean is ≥ every other retained row's mean.
("Exactly one" fails when the top mean is tied, since the 'min' tie method
assigns rank 1 to every tied top candidate.) -/
theorem processFit_rank_one_characterization (inp : ProcessFitInput) (c : ℕ)
    (hn : 1 ≤ inp.nSplits) (hp : inp.params.length = c * inp.nSplits)
    (hs : inp.testScores.length = c * inp.nSplits)
    (hc : 1 ≤ c) (hm : 1 ≤ inp.maxlen) :
    (1 ∈ (processFit inp).rankTestScore) ∧
    (∀ i, i < (processFit inp).rankTestScore.length →
      ((processFit inp).rankTestScore.getD i 0 = 1 ↔
        (processFit inp).meansAll.maximum =
          ((processFit inp).meanTestScore.getD i 0 : WithBot ℚ))) ∧
    (∀ i j, i < (processFit inp).rankTestScore.length →
      j < (processFit inp).rankTestScore.length →
      (processFit inp).rankTestScore.getD i 0 = 1 →
      (processFit inp).meanTestScore.getD j 0 ≤
        (processFit inp).meanTestScore.getD i 0) := by
  have hRl : (processFit inp).ranksAll.length = c := pf_ranksAll_length inp c hn hs
  have hMl : (processFit inp).meansAll.length = c := pf_meansAll_length inp c hn hs
  have hrtl : (processFit inp).rankTestScore.length =
      (processFit inp).bestIndices.length := pf_rankTestScore_length inp
  have hmtl : (processFit inp).meanTestScore.length =
      (processFit inp).bestIndices.length := pf_meanTestScore_length inp
  -- getD of retained columns, via the underlying candidate index
  have hrank : ∀ i, i < (processFit inp).bestIndices.length →
      (processFit inp).rankTestScore.getD i 0 =
        (processFit inp).ranksAll.getD ((processFit inp).bestIndices.getD i 0) 0 := by
    intro i hi
    rw [pf_rankTestScore_eq]
    exact getD_map_of_lt _ _ i 0 0 hi
  have hmean : ∀ i, i < (processFit inp).bestIndices.length →
      (processFit inp).meanTestScore.getD i 0 =
        (processFit inp).meansAll.getD ((processFit inp).bestIndices.getD i 0) 0 := by
    intro i hi
    rw [pf_meanTestScore_eq]
    exact getD_map_of_lt _ _ i 0 0 hi
  have hidxlt : ∀ i, i < (processFit inp).bestIndices.length →
      (processFit inp).bestIndices.getD i 0 < (processFit inp).meansAll.length := by
    intro i hi
    have := pf_bestIndices_mem_lt inp (getD_mem hi 0)
    omega
  -- the iff, for every retained position
  have hiff : ∀ i, i < (processFit inp).rankTestScore.length →
      ((processFit inp).rankTestScore.getD i 0 = 1 ↔
        (processFit inp).meansAll.maximum =
          some ((processFit inp).meanTestScore.getD i 0)) := by
    intro i hi
    rw [hrtl] at hi
    rw [hrank i hi, hmean i hi, pf_ranksAll_eq]
    have hk := hidxlt i hi
    rw [rankdataMinNeg_eq_one_iff (processFit inp).meansAll _ hk]
    constructor
    · intro hall
      exact List.maximum_eq_coe_iff.mpr ⟨getD_mem hk 0, hall⟩
    · intro hmax
      exact (List.maximum_eq_coe_iff.mp hmax).2
  refine ⟨?_, hiff, ?_⟩
  · -- a rank-1 row is retained
    obtain ⟨hBpos, _, hone⟩ := pf_head_rank_one inp c hn hp hs hc hm
    have h0 : (processFit inp).rankTestScore.getD 0 0 = 1 := by
      rw [hrank 0 hBpos]
      exact hone
    have : 0 < (processFit inp).rankTestScore.length := by omega
    rw [← h0]
    exact getD_mem this 0
  · -- rank-1 rows dominate every retained row
    intro i j hi hj hone
    have hmax := (List.maximum_eq_coe_iff.mp ((hiff i hi).mp hone)).2
    rw [hrtl] at hj
    rw [hmean j hj]
    exact hmax _ (getD_mem (hidxlt j hj) 0)

/-- C1 counterexample input: two candidates, one split each, with tied test
scores `1` and `1`. -/
def tiedScoresInput : ProcessFitInput :=
  { nSplits := 1, params := [0, 1], testScores := [1, 1],
    testSampleCounts := [1], iid := false, maxlen := 100 }

/-- C1 counterexample: with two candidates whose mean test scores tie, the
'min' tie method gives both retained rows rank 1, so `rank == 1` does not
occur exactly once. -/
theorem processFit_tied_top_two_rank_one_rows :
    (processFit tiedScoresInput).rankTestScore = [1, 1] ∧
    (processFit tiedScoresInput).rankTestScore.count 1 ≠ 1 := by
  constructor <;>
    norm_num [processFit, tiedScoresInput, takeEvery, chunkRows, npAverage,
      rankdataMinNeg, sortedIndicesByRank, List.range_succ, List.filter,
      List.insertionSort, List.orderedInsert, lexLe, List.count_cons]

/-- C1 witness input: three candidates with distinct mean scores `3, 1, 2`
and retention cap 2. -/
def distinctScoresInput : ProcessFitInput :=
  { nSplits := 1, params := [0, 1, 2], testScores := [3, 1, 2],
    testSampleCounts := [1], iid := false, maxlen := 2 }

/-- Witness for the amended C1 at a concrete input. -/
theorem processFit_rank_one_characterization_witness :
    (1 ≤ distinctScoresInput.nSplits ∧
      distinctScoresInput.params.length = 3 * distinctScoresInput.nSplits ∧
      distinctScoresInput.testScores.length = 3 * distinctScoresInput.nSplits ∧
      1 ≤ 3 ∧ 1 ≤ distinctScoresInput.maxlen) ∧
    ((1 ∈ (processFit distinctScoresInput).rankTestScore) ∧
    (∀ i, i < (processFit distinctScoresInput).rankTestScore.length →
      ((processFit distinctScoresInput).rankTestScore.getD i 0 = 1 ↔
        (processFit distinctScoresInput).meansAll.maximum =
          ((processFit distinctScoresInput).meanTestScore.getD i 0 : WithBot ℚ))) ∧
    (∀ i j, i < (processFit distinctScoresInput).rankTestScore.length →
      j < (processFit distinctScoresInput).rankTestScore.length →
      (processFit distinctScoresInput).rankTestScore.getD i 0 = 1 →
      (processFit distinctScoresInput).meanTestScore.getD j 0 ≤
        (processFit distinctScoresInput).meanTestScore.getD i 0)) :=
  ⟨⟨by decide, by decide, by decide, by decide, by decide⟩,
    processFit_rank_one_characterization distinctScoresInput 3
      (by decide) (by decide) (by decide) (by decide) (by decide)⟩

/-- C2: the result table retains exactly `min(maxlen, n_candidates)` rows,
and a candidate whose full, untruncated rank is 1 is always among the
retained rows. -/
theorem processFit_retention_cap (inp : ProcessFitInput) (c : ℕ)
    (hn : 1 ≤ inp.nSplits) (hp : inp.params.length = c * inp.nSplits)
    (hs : inp.testScores.length = c * inp.nSplits)
    (hc : 1 ≤ c) (hm : 1 ≤ inp.maxlen) :
    (processFit inp).rankTestScore.length = min inp.maxlen c ∧
    (processFit inp).meanTestScore.length = min inp.maxlen c ∧
    (processFit inp).params.length = min inp.maxlen c ∧
    ∃ i ∈ (processFit inp).bestIndices, (processFit inp).ranksAll.getD i 0 = 1 := by
  have hBl : (processFit inp).bestIndices.length = min inp.maxlen c :=
    pf_bestIndices_length inp c hn hp hs
  obtain ⟨hBpos, hmem, hone⟩ := pf_head_rank_one inp c hn hp hs hc hm
  exact ⟨by rw [pf_rankTestScore_length, hBl], by rw [pf_meanTestScore_length, hBl],
    by rw [pf_params_length, hBl], ⟨_, hmem, hone⟩⟩

/-- C2 witness input: five candidates, one split, retention cap 3. -/
def retentionInput : ProcessFitInput :=
  { nSplits := 1, params := [0, 1, 2, 3, 4], testScores := [5, 1, 4, 2, 3],
    testSampleCounts := [1], iid := false, maxlen := 3 }

/-- Witness for C2 at a concrete input. -/
theorem processFit_retention_cap_witness :
    (1 ≤ retentionInput.nSplits ∧
      retentionInput.params.length = 5 * retentionInput.nSplits ∧
      retentionInput.testScores.length = 5 * retentionInput.nSplits ∧
      1 ≤ 5 ∧ 1 ≤ retentionInput.maxlen) ∧
    ((processFit retentionInput).rankTestScore.length = min retentionInput.maxlen 5 ∧
    (processFit retentionInput).meanTestScore.length = min retentionInput.maxlen 5 ∧
    (processFit retentionInput).params.length = min retentionInput.maxlen 5 ∧
    ∃ i ∈ (processFit retentionInput).bestIndices,
      (processFit retentionInput).ranksAll.getD i 0 = 1) :=
  ⟨⟨by decide, by decide, by decide, by decide, by decide⟩,
    processFit_retention_cap retentionInput 5
      (by decide) (by decide) (by decide) (by decide) (by decide)⟩

/-! ### C6: weighted vs. unweighted aggregation -/

/-- C6 input: one candidate, two folds with test-sample counts `(3, 7)` and
per-fold test scores `(0.9, 0.5)`, with `iid` weighting enabled. -/
def twoFoldInput : ProcessFitInput :=
  { nSplits := 2, params := [0, 0], testScores := [9/10, 1/2],
    testSampleCounts := [3, 7], iid := true, maxlen := 100 }

/-- C6: with fold weights `(3, 7)` and fold scores `(0.9, 0.5)`,
`process_fit` stores `mean_test_score = (3·0.9 + 7·0.5)/10 = 0.62` when
`iid` is enabled and `0.70` when it is disabled; toggling only the `iid`
flag switches between the two. -/
theorem processFit_iid_weighted_mean :
    (processFit twoFoldInput).meanTestScore = [62/100] ∧
    (processFit { twoFoldInput with iid := false }).meanTestScore = [70/100] ∧
    (62 : ℚ)/100 ≠ 70/100 := by
  refine ⟨?_, ?_, by norm_num⟩ <;>
    norm_num [processFit, twoFoldInput, takeEvery, chunkRows, npAverage,
      rankdataMinNeg, sortedIndicesByRank, List.range_succ, List.filter,
      List.insertionSort, List.orderedInsert, lexLe]

/-! ### C3: result-gathering order of the two backends

`BaseSearchCVJoblib._fit` submits `fit_and_score` tasks with the nested
comprehension `for parameters in parameter_iterable for train, test in
cv_iter`, and `joblib.Parallel` returns outputs in submission order — so the
gathered list is candidate-major, split-minor.

`BaseSearchCVfastr._fit` gathers with
`sink_files = glob.glob(... + '/output*.hdf5')` followed by
`save_data.extend(list(data['RET']))` per file, in `glob` order.  `glob`
returns directory order (not numeric job order), and the code performs no
sorting or reordering by the job `Number` it stored in each parameters
chunk — the concatenation below is the whole reconstruction. -/

/-- The joblib dispatch order: the Cartesian product
`for parameters in parameter_iterable for train, test in cv_iter`, which
`joblib.Parallel` preserves in its gathered output list. -/
def joblibFitOrder (parameterIterable : List ℕ) (cvIter : List (ℕ × ℕ)) :
    List (ℕ × (ℕ × ℕ)) :=
  parameterIterable.flatMap (fun parameters => cvIter.map (fun tt => (parameters, tt)))

/-- The fastr gather: each sink output file contributes its result rows via
`save_data.extend(...)`, concatenated in the order `glob.glob` returned the
files. -/
def fastrSinkCollect (sinkFiles : List (String × List ℚ)) : List ℚ :=
  sinkFiles.flatMap Prod.snd

/-- The per-chunk result values of a search with 11 single-candidate chunks
(`n_jobspercore = 1`) over one split: chunk `i` holds the result of
candidate `i`. -/
def elevenChunks : List (List ℚ) := (List.range 11).map (fun i => [(i : ℚ)])

/-- The same 11 output files as a lexicographically ordered directory
listing, a realizable `glob.glob` return order: `output_10_...` sorts
between `output_1_...` and `output_2_...`. -/
def elevenChunksLexOrder : List (String × List ℚ) :=
  [("output_0_0.hdf5", [0]), ("output_10_0.hdf5", [10]),
   ("output_1_0.hdf5", [1]), ("output_2_0.hdf5", [2]),
   ("output_3_0.hdf5", [3]), ("output_4_0.hdf5", [4]),
   ("output_5_0.hdf5", [5]), ("output_6_0.hdf5", [6]),
   ("output_7_0.hdf5", [7]), ("output_8_0.hdf5", [8]),
   ("output_9_0.hdf5", [9])]

/-- C3, failing case for the fastr backend: while the joblib gather is
provably candidate-major (`joblibFitOrder`), the fastr gather concatenates
sink files in `glob` order with no reordering; under a lexicographic
directory order of the very same 11 job outputs the gathered list is not the
candidate-major submission order, so `[::n_splits]` de-duplication reads the
wrong rows. -/
theorem fastrSinkCollect_breaks_candidate_order :
    joblibFitOrder (List.range 11) [(0, 1)] =
      (List.range 11).map (fun i => (i, (0, 1))) ∧
    fastrSinkCollect elevenChunksLexOrder =
      [0, 10, 1, 2, 3, 4, 5, 6, 7, 8, 9] ∧
    fastrSinkCollect elevenChunksLexOrder ≠ elevenChunks.flatMap id := by
  refine ⟨?_, ?_, ?_⟩
  · simp [joblibFitOrder, List.range_succ]
  · norm_num [fastrSinkCollect, elevenChunksLexOrder]
  · norm_num [fastrSinkCollect, elevenChunksLexOrder, elevenChunks,
      List.range_succ]

/-! ### C4: fastr decomposition failure handling -/

/-- `zip(*save_data)` on the per-job result rows: the transposed list of
columns, truncated to the shortest row (Python `zip` semantics); empty when
there are no rows. -/
def zipStar (rows : List (List ℚ)) : List (List ℚ) :=
  match rows with
  | [] => []
  | r :: rs =>
    (List.range ((rs.map List.length).foldl min r.length)).map
      (fun i => (r :: rs).map (fun row => row.getD i 0))

/-- Outcome of the tail of `BaseSearchCVfastr._fit`: whether
`shutil.rmtree(tempfolder)` ran, and either the decomposed columns or the
`PREDICTValueError` message. -/
structure FastrFitOutcome where
  tempfolderDeleted : Bool
  result : Except String (List (List ℚ))

/-- Tail of `BaseSearchCVfastr._fit`: try to unpack `zip(*save_data)` into 7
columns (6 without train scores); a `ValueError` becomes a
`PREDICTValueError` whose message points at the preserved `tempfolder`, and
only on success is the temporary folder removed (before `process_fit`
runs). -/
def fastrDecomposeAndCleanup (returnTrainScore : Bool) (saveData : List (List ℚ))
    (tempfolder : String) : FastrFitOutcome :=
  let expected := if returnTrainScore then 7 else 6
  let cols := zipStar saveData
  if cols.length = expected then
    { tempfolderDeleted := true, result := Except.ok cols }
  else
    { tempfolderDeleted := false,
      result := Except.error
        ("Fitting classifiers has failed. The temporary results where not " ++
         "deleted and can be found in " ++ tempfolder) }

/-- C4: the fastr backend deletes its per-search temporary working directory
exactly when the collected output decomposes into the expected column count
(7 tuples components with train scores, 6 without); when decomposition
fails, an error escapes and the directory is kept for inspection. -/
theorem fastrDecomposeAndCleanup_deletes_iff_ok (returnTrainScore : Bool)
    (saveData : List (List ℚ)) (tempfolder : String) :
    ((fastrDecomposeAndCleanup returnTrainScore saveData tempfolder).tempfolderDeleted = true ↔
      (zipStar saveData).length = (if returnTrainScore then 7 else 6)) ∧
    ((fastrDecomposeAndCleanup returnTrainScore saveData tempfolder).tempfolderDeleted = false ↔
      ∃ msg, (fastrDecomposeAndCleanup returnTrainScore saveData tempfolder).result =
        Except.error msg) ∧
    ((fastrDecomposeAndCleanup returnTrainScore saveData tempfolder).result =
        Except.ok (zipStar saveData) ↔
      (zipStar saveData).length = (if returnTrainScore then 7 else 6)) := by
  by_cases h : (zipStar saveData).length = (if returnTrainScore then 7 else 6) <;>
    simp [fastrDecomposeAndCleanup, h]

/-! ### C8: `Ensemble.predict` and `Ensemble.predict_proba` -/

/-- `np.mean(rows, axis=0)` on a stack of equal-length rows: the columnwise
arithmetic mean. -/
def colMean (rows : List (List ℚ)) : List ℚ :=
  match rows with
  | [] => []
  | r0 :: _ => (List.range r0.length).map
      (fun j => (rows.map (fun r => r.getD j 0)).sum / rows.length)

/-- `Ensemble.predict`: collect each member estimator's predictions into the
`outcome` matrix, average across members (`np.mean(outcome, axis=0)`), then
binarize in place (`outcome[outcome >= 0.5] = 1; outcome[outcome < 0.5] = 0`). -/
def ensemblePredict (memberPredictions : List (List ℚ)) : List ℚ :=
  (colMean memberPredictions).map (fun v => if v ≥ 1/2 then 1 else 0)

/-- `Ensemble.predict_proba`: the class-0 and class-1 probability columns of
the members (`outcome_class1`, `outcome_class2`) are stacked separately and
averaged independently across members; no binarization. -/
def ensemblePredictProba (memberProbas : List (List (ℚ × ℚ))) : List (ℚ × ℚ) :=
  (colMean (memberProbas.map (fun m => m.map Prod.fst))).zip
    (colMean (memberProbas.map (fun m => m.map Prod.snd)))

lemma getD_map_range {β : Type*} (n j : ℕ) (f : ℕ → β) (d : β) (hj : j < n) :
    ((List.range n).map f).getD j d = f j := by
  rw [getD_map_of_lt f (List.range n) j d 0 (by simpa using hj)]
  congr 1
  rw [List.getD_eq_getElem _ 0 (by simpa using hj)]
  simp [List.getElem_range]

lemma colMean_getD (rows : List (List ℚ)) (n j : ℕ) (hne : rows ≠ [])
    (hlen : ∀ r ∈ rows, r.length = n) (hj : j < n) :
    (colMean rows).getD j 0 = (rows.map (fun r => r.getD j 0)).sum / rows.length := by
  obtain ⟨r0, rs, rfl⟩ := List.exists_cons_of_ne_nil hne
  have h0 : r0.length = n := hlen r0 (by simp)
  show ((List.range r0.length).map _).getD j 0 = _
  rw [h0]
  exact getD_map_range n j _ 0 hj

lemma length_colMean (rows : List (List ℚ)) (n : ℕ) (hne : rows ≠ [])
    (hlen : ∀ r ∈ rows, r.length = n) : (colMean rows).length = n := by
  obtain ⟨r0, rs, rfl⟩ := List.exists_cons_of_ne_nil hne
  have h0 : r0.length = n := hlen r0 (by simp)
  show ((List.range r0.length).map _).length = n
  simp [h0]

/-- C8: per sample, `Ensemble.predict` returns the unweighted mean of the
member predictions binarized at `0.5` (`1` iff the mean is `≥ 1/2`), and
`Ensemble.predict_proba` returns the two class-probability columns averaged
independently and unweighted across members, without binarization. -/
theorem ensemblePredict_spec (memberPredictions : List (List ℚ))
    (memberProbas : List (List (ℚ × ℚ))) (n j : ℕ)
    (hne : memberPredictions ≠ []) (hlen : ∀ r ∈ memberPredictions, r.length = n)
    (hne2 : memberProbas ≠ []) (hlen2 : ∀ r ∈ memberProbas, r.length = n)
    (hj : j < n) :
    (ensemblePredict memberPredictions).getD j 0 =
      (if ((memberPredictions.map (fun r => r.getD j 0)).sum /
            memberPredictions.length) ≥ 1/2 then 1 else 0) ∧
    (ensemblePredictProba memberProbas).getD j (0, 0) =
      ((memberProbas.map (fun r => (r.getD j (0, 0)).1)).sum / memberProbas.length,
       (memberProbas.map (fun r => (r.getD j (0, 0)).2)).sum / memberProbas.length) := by
  constructor
  · have hcl : (colMean memberPredictions).length = n :=
      length_colMean memberPredictions n hne hlen
    rw [ensemblePredict, getD_map_of_lt _ _ j 0 0 (by omega),
      colMean_getD memberPredictions n j hne hlen hj]
  · have hne1 : memberProbas.map (fun m => m.map Prod.fst) ≠ [] := by
      simpa using hne2
    have hneS : memberProbas.map (fun m => m.map Prod.snd) ≠ [] := by
      simpa using hne2
    have hlen1 : ∀ r ∈ memberProbas.map (fun m => m.map Prod.fst), r.length = n := by
      intro r hr
      obtain ⟨m, hm, rfl⟩ := List.mem_map.mp hr
      simpa using hlen2 m hm
    have hlenS : ∀ r ∈ memberProbas.map (fun m => m.map Prod.snd), r.length = n := by
      intro r hr
      obtain ⟨m, hm, rfl⟩ := List.mem_map.mp hr
      simpa using hlen2 m hm
    have h1 : j < (colMean (memberProbas.map (fun m => m.map Prod.fst))).length := by
      rw [length_colMean _ n hne1 hlen1]; omega
    have h2 : j < (colMean (memberProbas.map (fun m => m.map Prod.snd))).length := by
      rw [length_colMean _ n hneS hlenS]; omega
    have hz : j < ((colMean (memberProbas.map (fun m => m.map Prod.fst))).zip
        (colMean (memberProbas.map (fun m => m.map Prod.snd)))).length := by
      rw [List.length_zip]; omega
    rw [ensemblePredictProba, List.getD_eq_getElem _ _ hz, List.getElem_zip]
    rw [← List.getD_eq_getElem _ (0 : ℚ) h1, ← List.getD_eq_getElem _ (0 : ℚ) h2]
    rw [colMean_getD _ n j hne1 hlen1 hj, colMean_getD _ n j hneS hlenS hj]
    have hmap1 : (memberProbas.map (fun m => m.map Prod.fst)).map (fun r => r.getD j 0)
        = memberProbas.map (fun m => (m.getD j (0, 0)).1) := by
      rw [List.map_map]
      refine List.map_congr_left ?_
      intro m hm
      have hlm := hlen2 m hm
      exact getD_map_of_lt Prod.fst m j 0 (0, 0) (by omega)
    have hmapS : (memberProbas.map (fun m => m.map Prod.snd)).map (fun r => r.getD j 0)
        = memberProbas.map (fun m => (m.getD j (0, 0)).2) := by
      rw [List.map_map]
      refine List.map_congr_left ?_
      intro m hm
      have hlm := hlen2 m hm
      exact getD_map_of_lt Prod.snd m j 0 (0, 0) (by omega)
    rw [hmap1, hmapS]
    simp [List.length_map]

/-- Witness for C8 at a concrete input: two members, two samples. -/
theorem ensemblePredict_spec_witness :
    (([[1, 0], [1, 1]] : List (List ℚ)) ≠ [] ∧
      (∀ r ∈ ([[1, 0], [1, 1]] : List (List ℚ)), r.length = 2) ∧
      ([[(1/2, 1/2), (1, 0)], [(1/4, 3/4), (0, 1)]] : List (List (ℚ × ℚ))) ≠ [] ∧
      (∀ r ∈ ([[(1/2, 1/2), (1, 0)], [(1/4, 3/4), (0, 1)]] : List (List (ℚ × ℚ))),
        r.length = 2) ∧ 0 < 2) ∧
    ((ensemblePredict [[1, 0], [1, 1]]).getD 0 0 =
      (if ((([[1, 0], [1, 1]] : List (List ℚ)).map (fun r => r.getD 0 0)).sum /
            ([[1, 0], [1, 1]] : List (List ℚ)).length) ≥ 1/2 then 1 else 0) ∧
    (ensemblePredictProba [[(1/2, 1/2), (1, 0)], [(1/4, 3/4), (0, 1)]]).getD 0 (0, 0) =
      ((([[(1/2, 1/2), (1, 0)], [(1/4, 3/4), (0, 1)]] : List (List (ℚ × ℚ))).map
          (fun r => (r.getD 0 (0, 0)).1)).sum /
        ([[(1/2, 1/2), (1, 0)], [(1/4, 3/4), (0, 1)]] : List (List (ℚ × ℚ))).length,
       (([[(1/2, 1/2), (1, 0)], [(1/4, 3/4), (0, 1)]] : List (List (ℚ × ℚ))).map
          (fun r => (r.getD 0 (0, 0)).2)).sum /
        ([[(1/2, 1/2), (1, 0)], [(1/4, 3/4), (0, 1)]] : List (List (ℚ × ℚ))).length)) :=
  ⟨⟨by simp, by simp, by simp, by simp, by omega⟩,
    ensemblePredict_spec [[1, 0], [1, 1]] [[(1/2, 1/2), (1, 0)], [(1/4, 3/4), (0, 1)]]
      2 0 (by simp) (by simp) (by simp) (by simp) (by omega)⟩

/-! ### C9: in-place binarization by `sar_score` and `compute_performance` -/

/-- `sar_score` (SAR metric from Caruana et al. 2004): computes ROC on the
raw scores, then binarizes the caller's `prediction` array in place
(`prediction[num] = 1` if `>= 0.5` else `0`), and computes ACC and RMS on
the binarized array.  The sklearn metrics are external parameters; the
mutated array is returned alongside the score to model the in-place
update. -/
def sar_score (rocAucScore accuracyScore rmsScore : List ℚ → List ℚ → ℚ)
    (truth prediction : List ℚ) : ℚ × List ℚ :=
  let ROC := rocAucScore truth prediction
  let prediction2 := prediction.map (fun v => if v ≥ 1/2 then 1 else 0)
  let ACC := accuracyScore truth prediction2
  let RMS := rmsScore truth prediction2
  ((ACC + ROC + (1 - RMS)) / 3, prediction2)

/-- `compute_performance` inside `create_ensemble`: dispatches on the scoring
string; the `'f1_weighted'` branch first binarizes the caller's
`Y_valid_score` in place and then scores it; `'auc'` scores the raw array;
`'sar'` delegates to `sar_score`; anything else raises `KeyError`.  The
(possibly mutated) score array is returned alongside the result. -/
def compute_performance (f1Weighted rocAucScore accuracyScore rmsScore :
    List ℚ → List ℚ → ℚ) (scoring : String) (YvalidTruth YvalidScore : List ℚ) :
    Except String (ℚ × List ℚ) :=
  if scoring = "f1_weighted" then
    let score2 := YvalidScore.map (fun v => if v ≥ 1/2 then 1 else 0)
    Except.ok (f1Weighted YvalidTruth score2, score2)
  else if scoring = "auc" then
    Except.ok (rocAucScore YvalidTruth YvalidScore, YvalidScore)
  else if scoring = "sar" then
    Except.ok (sar_score rocAucScore accuracyScore rmsScore YvalidTruth YvalidScore)
  else
    Except.error ("[PREDICT Warning] No valid score method given in ensembling: "
      ++ scoring)

/-- C9: for every metric instantiation and every input, the array handed
back to the caller by `sar_score` — and by `compute_performance` with
scoring `'f1_weighted'` — is the caller's array with every element `≥ 0.5`
overwritten by `1` and every other element by `0`. -/
theorem sar_and_f1_binarize_caller_array
    (f1Weighted rocAucScore accuracyScore rmsScore : List ℚ → List ℚ → ℚ)
    (truth prediction YvalidTruth YvalidScore : List ℚ) :
    (sar_score rocAucScore accuracyScore rmsScore truth prediction).2 =
      prediction.map (fun v => if v ≥ 1/2 then 1 else 0) ∧
    compute_performance f1Weighted rocAucScore accuracyScore rmsScore
        "f1_weighted" YvalidTruth YvalidScore =
      Except.ok (f1Weighted YvalidTruth
          (YvalidScore.map (fun v => if v ≥ 1/2 then 1 else 0)),
        YvalidScore.map (fun v => if v ≥ 1/2 then 1 else 0)) := by
  constructor
  · rfl
  · simp [compute_performance]

/-! ### C10: `refit=False` makes every prediction-like method raise -/

/-- The state of a `BaseSearchCV` object relevant to `_check_is_fitted`:
the `refit` constructor flag, whether `best_estimator_` has been set, and
the truthiness of `self.ensemble`. -/
structure SearchCVState where
  refit : Bool
  hasBestEstimator : Bool
  hasEnsemble : Bool

/-- The `NotFittedError` message raised by `_check_is_fitted` when
`refit=False`. -/
def notFittedMessage (methodName : String) : String :=
  "This GridSearchCV instance was initialized with refit=False. " ++
    methodName ++ " is available only after refitting on the best parameters. "

/-- `BaseSearchCV._check_is_fitted`: with `refit=False` it raises
`NotFittedError` unconditionally, whatever state the search is in;
otherwise it checks that `best_estimator_` is present. -/
def checkIsFitted (self : SearchCVState) (methodName : String) : Except String Unit :=
  if !self.refit then
    Except.error (notFittedMessage methodName)
  else if self.hasBestEstimator then Except.ok ()
  else Except.error "NotFittedError: best_estimator_"

/-- `BaseSearchCV.predict`: `_check_is_fitted` first, then delegate to the
ensemble when one is set, else preprocess and call the best estimator. -/
def predictCV (self : SearchCVState) : Except String String :=
  (checkIsFitted self "predict").map
    (fun _ => if self.hasEnsemble then "ensemble.predict" else "best_estimator_.predict")

/-- `BaseSearchCV.predict_proba`, same shape as `predict`. -/
def predictProbaCV (self : SearchCVState) : Except String String :=
  (checkIsFitted self "predict_proba").map
    (fun _ => if self.hasEnsemble then "ensemble.predict_proba"
              else "best_estimator_.predict_proba")

/-- `BaseSearchCV.predict_log_proba`, same shape as `predict`. -/
def predictLogProbaCV (self : SearchCVState) : Except String String :=
  (checkIsFitted self "predict_log_proba").map
    (fun _ => if self.hasEnsemble then "ensemble.predict_log_proba"
              else "best_estimator_.predict_log_proba")

/-- `BaseSearchCV.decision_function`, same shape as `predict`. -/
def decisionFunctionCV (self : SearchCVState) : Except String String :=
  (checkIsFitted self "decision_function").map
    (fun _ => if self.hasEnsemble then "ensemble.decision_function"
              else "best_estimator_.decision_function")

/-- `BaseSearchCV.transform`, same shape as `predict`. -/
def transformCV (self : SearchCVState) : Except String String :=
  (checkIsFitted self "transform").map
    (fun _ => if self.hasEnsemble then "ensemble.transform"
              else "best_estimator_.transform")

/-- `BaseSearchCV.inverse_transform`, same shape as `predict` (it delegates
to `transform` on both branches, as in the source). -/
def inverseTransformCV (self : SearchCVState) : Except String String :=
  (checkIsFitted self "inverse_transform").map
    (fun _ => if self.hasEnsemble then "ensemble.transform"
              else "best_estimator_.transform")

/-- C10: on any object constructed with `refit=False`, all six
prediction-like methods raise `NotFittedError`, regardless of whether a
search has been run or an ensemble exists. -/
theorem refit_false_all_methods_raise (self : SearchCVState)
    (h : self.refit = false) :
    predictCV self = Except.error (notFittedMessage "predict") ∧
    predictProbaCV self = Except.error (notFittedMessage "predict_proba") ∧
    predictLogProbaCV self = Except.error (notFittedMessage "predict_log_proba") ∧
    decisionFunctionCV self = Except.error (notFittedMessage "decision_function") ∧
    transformCV self = Except.error (notFittedMessage "transform") ∧
    inverseTransformCV self = Except.error (notFittedMessage "inverse_transform") := by
  refine ⟨?_, ?_, ?_, ?_, ?_, ?_⟩ <;>
    simp [predictCV, predictProbaCV, predictLogProbaCV, decisionFunctionCV,
      transformCV, inverseTransformCV, checkIsFitted, h, Except.map]

/-- Witness for C10: a fully fitted state with an ensemble, but
`refit=False`. -/
theorem refit_false_all_methods_raise_witness :
    ((SearchCVState.mk false true true).refit = false) ∧
    (predictCV (SearchCVState.mk false true true) =
      Except.error (notFittedMessage "predict") ∧
    predictProbaCV (SearchCVState.mk false true true) =
      Except.error (notFittedMessage "predict_proba") ∧
    predictLogProbaCV (SearchCVState.mk false true true) =
      Except.error (notFittedMessage "predict_log_proba") ∧
    decisionFunctionCV (SearchCVState.mk false true true) =
      Except.error (notFittedMessage "decision_function") ∧
    transformCV (SearchCVState.mk false true true) =
      Except.error (notFittedMessage "transform") ∧
    inverseTransformCV (SearchCVState.mk false true true) =
      Except.error (notFittedMessage "inverse_transform")) :=
  ⟨rfl, refit_false_all_methods_raise (SearchCVState.mk false true true) rfl⟩

/-! ### C7: unrecognized ensembling method -/

/-- The `method` argument of `create_ensemble`: Python `int` or `str`. -/
inductive EnsembleMethod where
  | intMethod : ℕ → EnsembleMethod
  | strMethod : String → EnsembleMethod

/-- Observable outcome of a `create_ensemble` call: the selected candidate
indices (`self.ensemble` afterwards; the prior state when unchanged), how
many `refit_and_score` calls were dispatched, whether the warning was
printed, and whether an exception propagated. -/
structure CreateEnsembleOutcome where
  ensemble : List ℕ
  refitsDispatched : ℕ
  warned : Bool
  raised : Bool
  deriving DecidableEq

/-- Method dispatch of `BaseSearchCV.create_ensemble`: an `int` method takes
`ensemble = range(0, method)`; `'Caruana'` runs the precompute and greedy
phases (their candidate selection and refit count enter as parameters here;
the greedy loop itself is embedded below for C5); any other method — the
default `'Top50'` included — only prints `'[PREDICT WARNING] No valid
ensemble method given: ...'` and does `return self`: no exception, no refit
dispatched, prior `self.ensemble` untouched.  A selected ensemble is then
refit member-by-member on the full training set. -/
def createEnsembleDispatch (priorEnsemble : List ℕ) (caruanaSelection : List ℕ)
    (caruanaPrecomputeRefits : ℕ) (method : EnsembleMethod) : CreateEnsembleOutcome :=
  match method with
  | .intMethod k =>
    { ensemble := List.range k, refitsDispatched := k,
      warned := false, raised := false }
  | .strMethod s =>
    if s = "Caruana" then
      { ensemble := caruanaSelection,
        refitsDispatched := caruanaPrecomputeRefits + caruanaSelection.length,
        warned := false, raised := false }
    else
      { ensemble := priorEnsemble, refitsDispatched := 0,
        warned := true, raised := false }

/-- C7 counterexample: with the default method `'Top50'` no error reaches
the caller — `create_ensemble` prints a warning and returns `self`
normally, with the prior ensemble intact and nothing refit. -/
theorem createEnsemble_top50_raises_nothing :
    (createEnsembleDispatch [42] [] 0 (EnsembleMethod.strMethod "Top50")).raised
      = false ∧
    (createEnsembleDispatch [42] [] 0 (EnsembleMethod.strMethod "Top50")).warned
      = true := by
  constructor <;> simp [createEnsembleDispatch]

/-- C7, amended: for every method that is neither an integer nor the string
`'Caruana'`, `create_ensemble` prints a warning naming the method, dispatches
no refit, leaves the prior ensemble state unchanged, and returns normally —
no exception is raised. -/
theorem createEnsemble_unknown_method_warns (priorEnsemble caruanaSelection : List ℕ)
    (pre : ℕ) (s : String) (h : s ≠ "Caruana") :
    createEnsembleDispatch priorEnsemble caruanaSelection pre
        (EnsembleMethod.strMethod s) =
      { ensemble := priorEnsemble, refitsDispatched := 0,
        warned := true, raised := false } := by
  simp [createEnsembleDispatch, h]

/-- Witness for the amended C7 with the default method `'Top50'`. -/
theorem createEnsemble_unknown_method_warns_witness :
    ("Top50" ≠ "Caruana") ∧
    createEnsembleDispatch [7] [1, 2] 5 (EnsembleMethod.strMethod "Top50") =
      { ensemble := [7], refitsDispatched := 0, warned := true, raised := false } :=
  ⟨by decide, createEnsemble_unknown_method_warns [7] [1, 2] 5 "Top50" (by decide)⟩

/-! ### C5: the greedy-expansion loop of `create_ensemble` (method='Caruana')

The loop (`initialize=False` variant) is, in the source:
```
best_performance -= 1e-10
iteration = 0
while new_performance > best_performance:
    best_performance = new_performance
    if iteration > 1: ensemble.append(best_index); stack scores
    elif iteration == 1: ensemble.append(best_index); create y_score
    performances_temp = <mean-over-folds performance of each addition>
    new_performance = max(performances_temp)
    best_index = performances_temp.index(new_performance)
    iteration += 1
```
The `1e-10` epsilon is subtracted from `best_performance` once, before the
loop; inside the loop the guard is the strict comparison
`new_performance > best_performance` with no tolerance. -/

/-- Python `max(xs)` for a nonempty list. -/
def pymax (xs : List ℚ) : ℚ := xs.foldl max (xs.headD 0)

/-- Python `xs.index(v)`: position of the first occurrence. -/
def pyIndex (xs : List ℚ) (v : ℚ) : ℕ := xs.findIdx (fun q => q == v)

/-- Precomputed inputs of the greedy phase: fold and classifier counts, the
per-fold validation-score matrix `Y_valid_score` (fold → classifier → score
vector), the per-fold ground truths `Y_valid_truth`, and the
`compute_performance(scoring, ·, ·)` closure (the sklearn metric behind it
is an external collaborator). -/
structure CaruanaInput where
  nIter : ℕ
  nClassifiers : ℕ
  YvalidScore : ℕ → ℕ → List ℚ
  YvalidTruth : ℕ → List ℚ
  perf : List ℚ → List ℚ → ℚ

/-- The mutable state threaded through the greedy `while` loop:
`best_performance`, `new_performance`, `iteration`, `ensemble`,
`best_index`, and the per-fold stacked score rows `y_score`. -/
structure GreedyState where
  bestPerformance : ℚ
  newPerformance : ℚ
  iteration : ℕ
  ensemble : List ℕ
  bestIndex : ℕ
  yScore : List (List (List ℚ))

/-- One pass of the greedy loop body (`initialize=False`): save the previous
`new_performance` as `best_performance`; on iteration 1 create `y_score`
from the single chosen model, on iterations > 1 `np.vstack` the chosen
model's row; then score every candidate addition on every fold (iteration 0
scores each candidate alone, later iterations take the columnwise mean of
the stacked rows with the candidate's row appended), average over folds,
and take `max(...)` and its first index. -/
def greedyStep (inp : CaruanaInput) (st : GreedyState) : GreedyState :=
  let best := st.newPerformance
  let st1 :=
    if st.iteration > 1 then
      { st with
        ensemble := st.ensemble ++ [st.bestIndex]
        yScore := (List.range inp.nIter).map
          (fun f => st.yScore.getD f [] ++ [inp.YvalidScore f st.bestIndex]) }
    else if st.iteration = 1 then
      { st with
        ensemble := st.ensemble ++ [st.bestIndex]
        yScore := (List.range inp.nIter).map
          (fun f => [inp.YvalidScore f st.bestIndex]) }
    else st
  let perfs := (List.range inp.nClassifiers).map (fun e =>
    ((List.range inp.nIter).map (fun f =>
      inp.perf (inp.YvalidTruth f)
        (if st.iteration = 0 then inp.YvalidScore f e
         else colMean (st1.yScore.getD f [] ++ [inp.YvalidScore f e])))).sum
      / inp.nIter)
  let newPerf := pymax perfs
  { bestPerformance := best, newPerformance := newPerf,
    iteration := st.iteration + 1, ensemble := st1.ensemble,
    bestIndex := pyIndex perfs newPerf, yScore := st1.yScore }

/-- `while new_performance > best_performance`, fuel-bounded. -/
def greedyLoop (inp : CaruanaInput) : ℕ → GreedyState → GreedyState
  | 0, st => st
  | fuel + 1, st =>
    if st.newPerformance > st.bestPerformance then
      greedyLoop inp fuel (greedyStep inp st)
    else st

/-- State on entry to the greedy loop with `initialize=False`:
`best_performance = 0` lowered once by the `1e-10` epsilon,
`new_performance = 0.001`, `iteration = 0`, empty ensemble. -/
def greedyInitState : GreedyState :=
  { bestPerformance := 0 - 1/10000000000, newPerformance := 1/1000,
    iteration := 0, ensemble := [], bestIndex := 0, yScore := [] }

/-- The greedy-expansion phase of `create_ensemble(method='Caruana',
initialize=False)`. -/
def caruanaGreedy (inp : CaruanaInput) (fuel : ℕ) : GreedyState :=
  greedyLoop inp fuel greedyInitState

/-- Synthetic performance lookup for the increasing-to-size-3 scenario: with
score vectors `[0]` and `[1]` for the two candidates, an ensemble that holds
`a` copies of candidate 0 and `b` copies of candidate 1 averages to
`[b/(a+b)]`; the values below make the best achievable ensemble performance
`0.5, 0.6, 0.7` at sizes `1, 2, 3` and smaller at size 4. -/
def gIncr3 (_truth scores : List ℚ) : ℚ :=
  if scores = [0] then 2/5
  else if scores = [1] then 1/2
  else if scores = [1/2] then 3/5
  else if scores = [1/3] then 7/10
  else if scores = [2/3] then 13/20
  else if scores = [1/4] then 3/10
  else 0

/-- C5 instance: one fold, two classifiers, performance `gIncr3` — strictly
increasing up to ensemble size 3, then decreasing. -/
def incr3Input : CaruanaInput :=
  { nIter := 1, nClassifiers := 2,
    YvalidScore := fun _ c => if c = 0 then [0] else [1],
    YvalidTruth := fun _ => [0, 1],
    perf := gIncr3 }

lemma greedyLoop_succ (inp : CaruanaInput) (fuel : ℕ) (st : GreedyState) :
    greedyLoop inp (fuel + 1) st =
      if st.newPerformance > st.bestPerformance then
        greedyLoop inp fuel (greedyStep inp st) else st := rfl

lemma incr3_step0 : greedyStep incr3Input greedyInitState =
    { bestPerformance := 1/1000, newPerformance := 1/2, iteration := 1,
      ensemble := [], bestIndex := 1, yScore := [] } := by
  norm_num [greedyStep, greedyInitState, incr3Input, gIncr3, colMean, pymax,
    pyIndex, List.range_succ, List.findIdx, List.findIdx.go, max_def,
    beq_iff_eq, Bool.cond_eq_ite]

lemma incr3_step1 : greedyStep incr3Input
    { bestPerformance := 1/1000, newPerformance := 1/2, iteration := 1,
      ensemble := [], bestIndex := 1, yScore := [] } =
    { bestPerformance := 1/2, newPerformance := 3/5, iteration := 2,
      ensemble := [1], bestIndex := 0, yScore := [[[1]]] } := by
  norm_num [greedyStep, incr3Input, gIncr3, colMean, pymax,
    pyIndex, List.range_succ, List.findIdx, List.findIdx.go, max_def,
    beq_iff_eq, Bool.cond_eq_ite, List.getD]

lemma incr3_step2 : greedyStep incr3Input
    { bestPerformance := 1/2, newPerformance := 3/5, iteration := 2,
      ensemble := [1], bestIndex := 0, yScore := [[[1]]] } =
    { bestPerformance := 3/5, newPerformance := 7/10, iteration := 3,
      ensemble := [1, 0], bestIndex := 0, yScore := [[[1], [0]]] } := by
  norm_num [greedyStep, incr3Input, gIncr3, colMean, pymax,
    pyIndex, List.range_succ, List.findIdx, List.findIdx.go, max_def,
    beq_iff_eq, Bool.cond_eq_ite, List.getD]

lemma incr3_step3 : greedyStep incr3Input
    { bestPerformance := 3/5, newPerformance := 7/10, iteration := 3,
      ensemble := [1, 0], bestIndex := 0, yScore := [[[1], [0]]] } =
    { bestPerformance := 7/10, newPerformance := 3/5, iteration := 4,
      ensemble := [1, 0, 0], bestIndex := 1, yScore := [[[1], [0], [0]]] } := by
  norm_num [greedyStep, incr3Input, gIncr3, colMean, pymax,
    pyIndex, List.range_succ, List.findIdx, List.findIdx.go, max_def,
    beq_iff_eq, Bool.cond_eq_ite, List.getD]

lemma incr3_run : caruanaGreedy incr3Input 10 =
    { bestPerformance := 7/10, newPerformance := 3/5, iteration := 4,
      ensemble := [1, 0, 0], bestIndex := 1, yScore := [[[1], [0], [0]]] } := by
  rw [caruanaGreedy]
  rw [show (10 : ℕ) = 9 + 1 from rfl, greedyLoop_succ,
    if_pos (by norm_num [greedyInitState]), incr3_step0]
  rw [show (9 : ℕ) = 8 + 1 from rfl, greedyLoop_succ,
    if_pos (by norm_num), incr3_step1]
  rw [show (8 : ℕ) = 7 + 1 from rfl, greedyLoop_succ,
    if_pos (by norm_num), incr3_step2]
  rw [show (7 : ℕ) = 6 + 1 from rfl, greedyLoop_succ,
    if_pos (by norm_num), incr3_step3]
  rw [show (6 : ℕ) = 5 + 1 from rfl, greedyLoop_succ, if_neg (by norm_num)]

/-- C5, amended: the greedy loop terminates when no candidate addition
strictly improves the mean cross-validated performance (the `1e-10`
tolerance enters only once, lowering the pre-loop best); on a scoring
function whose best achievable performance strictly increases up to
ensemble size 3 and then decreases (and whose best single model beats the
`0.001` initialization sentinel), it terminates with exactly 3 selected
members, the guard being genuinely false at exit. -/
theorem caruanaGreedy_three_members :
    (caruanaGreedy incr3Input 10).ensemble = [1, 0, 0] ∧
    (caruanaGreedy incr3Input 10).ensemble.length = 3 ∧
    ¬((caruanaGreedy incr3Input 10).newPerformance >
      (caruanaGreedy incr3Input 10).bestPerformance) := by
  rw [incr3_run]
  exact ⟨rfl, rfl, by norm_num⟩

/-- Synthetic performance lookup for the tolerance counterexample: the best
size-2 ensemble beats the best single model by only `1e-12`. -/
def gTinyGain (_truth scores : List ℚ) : ℚ :=
  if scores = [0] then 2/5
  else if scores = [1] then 1/2
  else if scores = [1/2] then 1/2 + 1/1000000000000
  else 0

/-- C5 counterexample instance: one fold, two classifiers, performance
`gTinyGain`. -/
def tinyGainInput : CaruanaInput :=
  { nIter := 1, nClassifiers := 2,
    YvalidScore := fun _ c => if c = 0 then [0] else [1],
    YvalidTruth := fun _ => [0, 1],
    perf := gTinyGain }

lemma tinyGain_step0 : greedyStep tinyGainInput greedyInitState =
    { bestPerformance := 1/1000, newPerformance := 1/2, iteration := 1,
      ensemble := [], bestIndex := 1, yScore := [] } := by
  norm_num [greedyStep, greedyInitState, tinyGainInput, gTinyGain, colMean,
    pymax, pyIndex, List.range_succ, List.findIdx, List.findIdx.go, max_def,
    beq_iff_eq, Bool.cond_eq_ite]

lemma tinyGain_step1 : greedyStep tinyGainInput
    { bestPerformance := 1/1000, newPerformance := 1/2, iteration := 1,
      ensemble := [], bestIndex := 1, yScore := [] } =
    { bestPerformance := 1/2, newPerformance := 1/2 + 1/1000000000000,
      iteration := 2, ensemble := [1], bestIndex := 0, yScore := [[[1]]] } := by
  norm_num [greedyStep, tinyGainInput, gTinyGain, colMean, pymax,
    pyIndex, List.range_succ, List.findIdx, List.findIdx.go, max_def,
    beq_iff_eq, Bool.cond_eq_ite, List.getD]

lemma tinyGain_step2 : greedyStep tinyGainInput
    { bestPerformance := 1/2, newPerformance := 1/2 + 1/1000000000000,
      iteration := 2, ensemble := [1], bestIndex := 0, yScore := [[[1]]] } =
    { bestPerformance := 1/2 + 1/1000000000000, newPerformance := 0,
      iteration := 3, ensemble := [1, 0], bestIndex := 0,
      yScore := [[[1], [0]]] } := by
  norm_num [greedyStep, tinyGainInput, gTinyGain, colMean, pymax,
    pyIndex, List.range_succ, List.findIdx, List.findIdx.go, max_def,
    beq_iff_eq, Bool.cond_eq_ite, List.getD]

lemma tinyGain_run : caruanaGreedy tinyGainInput 10 =
    { bestPerformance := 1/2 + 1/1000000000000, newPerformance := 0,
      iteration := 3, ensemble := [1, 0], bestIndex := 0,
      yScore := [[[1], [0]]] } := by
  rw [caruanaGreedy]
  rw [show (10 : ℕ) = 9 + 1 from rfl, greedyLoop_succ,
    if_pos (by norm_num [greedyInitState]), tinyGain_step0]
  rw [show (9 : ℕ) = 8 + 1 from rfl, greedyLoop_succ,
    if_pos (by norm_num), tinyGain_step1]
  rw [show (8 : ℕ) = 7 + 1 from rfl, greedyLoop_succ,
    if_pos (by norm_num), tinyGain_step2]
  rw [show (7 : ℕ) = 6 + 1 from rfl, greedyLoop_succ, if_neg (by norm_num)]

/-- C5 counterexample: the best extension improves on the previous best
(`1/2`) by only `1e-12`, far below the claimed `1e-10` tolerance — were the
claim's loop guard right, the loop would stop with the single member `[1]`;
the code's strict-inequality guard continues and ends with 2 members. -/
theorem caruanaGreedy_continues_below_tolerance :
    (caruanaGreedy tinyGainInput 10).ensemble = [1, 0] ∧
    (caruanaGreedy tinyGainInput 10).ensemble.length ≠ 1 ∧
    ((1 : ℚ)/2 + 1/1000000000000) - 1/2 < 1/10000000000 := by
  rw [tinyGain_run]
  exact ⟨rfl, by norm_num, by norm_num⟩

end PREDICT
